import Mathlib

/-!
Shallow embedding of the goal/streak engine of the Solace repository.

The embedded operations are translated from `src/store.ts` (the zustand
store: `toggleGoalCompletion`, `deleteGoal`, `updateGoalStatus`, `addGoal`,
`loadState`) and from the `GoalTracker` component inside `src/FocusTimer.tsx`
(`toggleGoalCompletion`, `todayStats`, `loadFromStorage`, `handleAddGoal`).
The two copies of the streak logic are line-for-line identical on the fields
modelled here.

Modelling conventions:
* calendar-day keys (the `YYYY-MM-DD` strings) are modelled as `Nat` day
  indices; "yesterday" of day `d` is `d - 1` (the source computes the
  previous day's key with date arithmetic);
* JS numbers used as counters (`streak`, `bestStreak`, `currentCount`) are
  modelled as `Int`;
* `lastCompleted` (a `Date | null`) is modelled as `Option Nat`, recording
  the day index the completion happened on;
* the percentage arithmetic of `todayStats`, which in JS can produce `NaN`
  (`0/0`) or `Infinity` (`n/0`, `n > 0`), is modelled with the inductive
  `JsNum` carrying either a rational, `NaN`, or `+Infinity`, with
  `Math.round` as `⌊x + 1/2⌋` and `x || 0` as NaN/zero coercion.
-/

namespace Solace

/-- Goal status enumeration, from the `GoalStatus` union type in
`FocusTimer.tsx` (`'active' | 'paused' | 'completed' | 'archived'`). -/
inductive GoalStatus where
  | active
  | paused
  | completed
  | archived
deriving DecidableEq, Repr

/-- A goal, from the `Goal` interface in `FocusTimer.tsx` (presentation-only
fields `description`, `category`, `frequency`, `color`, `icon`, `createdAt`
and the derived 7-day `history` cache are not part of any claim and are
omitted; no modelled operation reads or writes them). -/
structure Goal where
  id : String
  title : String
  status : GoalStatus
  targetCount : Int
  currentCount : Int
  streak : Int
  bestStreak : Int
  lastCompleted : Option Nat
deriving DecidableEq, Repr

/-- One `{goalId, completed}` pair of a daily ledger entry
(`DailyProgress.goals` element in `FocusTimer.tsx` / `store.ts`). -/
structure GoalEntry where
  goalId : String
  completed : Bool
deriving DecidableEq, Repr

/-- One day of the daily-progress ledger (`DailyProgress` interface). -/
structure DailyProgress where
  date : Nat
  goals : List GoalEntry
deriving DecidableEq, Repr

/-- The goal-tracking state: the goal collection plus the ledger
(the `goals` / `dailyProgress` pieces of the store state). -/
structure GState where
  goals : List Goal
  dailyProgress : List DailyProgress
deriving DecidableEq, Repr

/-- The expression `existingProgress?.goals.find(g => g.goalId === goalId)?.completed || false`:
the effective completion flag of `goalId` on day `day` in the ledger. -/
def isCompletedOn (dp : List DailyProgress) (day : Nat) (goalId : String) : Bool :=
  match dp.find? (fun p => p.date == day) with
  | some p =>
    match p.goals.find? (fun e => e.goalId == goalId) with
    | some e => e.completed
    | none => false
  | none => false

/-- The per-goal update of the Undo branch of `toggleGoalCompletion`
(`store.ts` lines 645-657): decrement `currentCount` with floor 0,
decrement `streak` with floor 0, and clear `lastCompleted` exactly when the
pre-update `currentCount` was `1`. -/
def undoGoalUpdate (g : Goal) : Goal :=
  { g with
    currentCount := max 0 (g.currentCount - 1),
    streak := if g.streak > 0 then g.streak - 1 else 0,
    lastCompleted := if g.currentCount == 1 then none else g.lastCompleted }

/-- The per-goal update of the Complete branch of `toggleGoalCompletion`
(`store.ts` lines 671-694): `newStreak = completedYesterday ? streak + 1 : 1`,
`bestStreak = max bestStreak newStreak`, increment `currentCount`, stamp
`lastCompleted` with now (modelled as the current day index). -/
def markGoalUpdate (today : Nat) (completedYesterday : Bool) (g : Goal) : Goal :=
  let newStreak := if completedYesterday then g.streak + 1 else 1
  { g with
    currentCount := g.currentCount + 1,
    streak := newStreak,
    bestStreak := max g.bestStreak newStreak,
    lastCompleted := some today }

/-- The ledger update of the Undo branch: set `completed := false` on every
entry for `goalId` inside every day record dated `today`. -/
def setTodayFalse (today : Nat) (goalId : String) (dp : List DailyProgress) :
    List DailyProgress :=
  dp.map (fun day =>
    if day.date == today then
      { day with goals := day.goals.map (fun e =>
          if e.goalId == goalId then { e with completed := false } else e) }
    else day)

/-- The ledger update of the Complete branch: if a record for `today` exists,
either flip the existing `goalId` entry to `completed := true` or append a
fresh `{goalId, completed: true}` pair to it; otherwise push a new day
record (`store.ts` lines 696-724). -/
def setTodayTrue (today : Nat) (goalId : String) (dp : List DailyProgress) :
    List DailyProgress :=
  match dp.find? (fun p => p.date == today) with
  | some _ =>
    dp.map (fun day =>
      if day.date == today then
        if (day.goals.find? (fun e => e.goalId == goalId)).isSome then
          { day with goals := day.goals.map (fun e =>
              if e.goalId == goalId then { e with completed := true } else e) }
        else
          { day with goals := day.goals ++ [{ goalId := goalId, completed := true }] }
      else day)
  | none =>
    dp ++ [{ date := today, goals := [{ goalId := goalId, completed := true }] }]

/-- The per-goal map applied by `toggleGoalCompletion` once the goal was
found: the Undo lambda when the goal is completed today, the Complete
lambda otherwise. -/
def toggleUpd (today : Nat) (goalId : String) (s : GState) (g : Goal) : Goal :=
  if isCompletedOn s.dailyProgress today goalId then
    if g.id == goalId then undoGoalUpdate g else g
  else if g.id == goalId then
    markGoalUpdate today (isCompletedOn s.dailyProgress (today - 1) goalId) g
  else g

/-- The action `toggleGoalCompletion(goalId)` from `store.ts` lines 630-727 (the copy in
`FocusTimer.tsx` lines 2479-2573 is identical on the modelled fields): no-op
when the goal does not exist, otherwise dispatch on the today-completion
flag into the Undo or Complete branch. The wall clock read
(`new Date().toISOString().split('T')[0]`) is the explicit `today`
parameter. -/
def toggleGoalCompletion (today : Nat) (goalId : String) (s : GState) : GState :=
  match s.goals.find? (fun g => g.id == goalId) with
  | none => s
  | some _ =>
    if isCompletedOn s.dailyProgress today goalId then
      { goals := s.goals.map (toggleUpd today goalId s),
        dailyProgress := setTodayFalse today goalId s.dailyProgress }
    else
      { goals := s.goals.map (toggleUpd today goalId s),
        dailyProgress := setTodayTrue today goalId s.dailyProgress }

/-- The action `deleteGoal` from `store.ts` lines 624-628 (and `FocusTimer.tsx`
lines 2581-2583): filter the goal out of the goal collection; the
daily-progress ledger is not touched. -/
def deleteGoal (goalId : String) (s : GState) : GState :=
  { s with goals := s.goals.filter (fun g => !(g.id == goalId)) }

/-- The action `updateGoalStatus` (`store.ts` lines 729-735): pure field update. -/
def updateGoalStatus (goalId : String) (status : GoalStatus) (s : GState) : GState :=
  { s with goals := s.goals.map (fun g =>
      if g.id == goalId then { g with status := status } else g) }

/-- The fresh goal built by `handleAddGoal` in `FocusTimer.tsx`
(status `active`, `currentCount = 0`, `streak = 0`, `bestStreak = 0`,
`lastCompleted = null`). -/
def mkNewGoal (id title : String) (targetCount : Int) : Goal :=
  { id := id, title := title, status := GoalStatus.active,
    targetCount := targetCount, currentCount := 0, streak := 0,
    bestStreak := 0, lastCompleted := none }

/-- First goal in the collection matching an id — the read the source
performs with `goals.find(g => g.id === goalId)`. -/
def findGoal (s : GState) (goalId : String) : Option Goal :=
  s.goals.find? (fun g => g.id == goalId)

/-- The fold `applyToggles` applies a sequence of `toggleGoalCompletion` calls
(each with the day it happens on) over a state. -/
def applyToggles (ops : List (Nat × String)) (s : GState) : GState :=
  ops.foldl (fun st op => toggleGoalCompletion op.1 op.2 st) s

/-- Placeholder element handed to `List.getD` in positional statements. -/
def defGoal : Goal := mkNewGoal "" "" 1

/-- The fresh goal of the chained-streak scenario (C1). -/
def freshG1 : Goal := mkNewGoal "g1" "Daily GitHub Commit" 1

/-- Start state of the chained-streak scenario: one fresh goal, empty
ledger. -/
def scenarioS0 : GState := { goals := [freshG1], dailyProgress := [] }

/-- The scenario goal after the day-`d` completion. -/
def scenarioG1 (d : Nat) : Goal :=
  Goal.mk "g1" "Daily GitHub Commit" GoalStatus.active 1 1 1 1 (some d)

/-- The scenario state after the day-`d` completion. -/
def scenarioS1 (d : Nat) : GState :=
  { goals := [scenarioG1 d],
    dailyProgress := [DailyProgress.mk d [GoalEntry.mk "g1" true]] }

/-- The scenario goal after the chained day-`d+1` completion. -/
def scenarioG2 (d : Nat) : Goal :=
  Goal.mk "g1" "Daily GitHub Commit" GoalStatus.active 1 2 2 2 (some (d + 1))

/-- The scenario state after the chained day-`d+1` completion. -/
def scenarioS2 (d : Nat) : GState :=
  { goals := [scenarioG2 d],
    dailyProgress := [DailyProgress.mk d [GoalEntry.mk "g1" true],
      DailyProgress.mk (d + 1) [GoalEntry.mk "g1" true]] }

/-- Counterexample state for the toggle-involution claim: goal `"g1"` with a
5-day streak whose ledger records no completion yesterday (the streak ended
earlier), nothing completed today. -/
def cexS2 : GState :=
  { goals := [Goal.mk "g1" "t" GoalStatus.active 1 5 5 5 (some 8)],
    dailyProgress := [] }

/-- Counterexample state for the Undo/`lastCompleted` claim: goal `"g1"`
completed today per the ledger while `currentCount = 0` and `lastCompleted`
is set. -/
def cexS6 : GState :=
  { goals := [Goal.mk "g1" "t" GoalStatus.active 1 0 0 0 (some 5)],
    dailyProgress := [DailyProgress.mk 10 [GoalEntry.mk "g1" true]] }

/-- The streak-leaders aggregate rendered by the stats tab of
`FocusTimer.tsx` (lines 3122-3125):
`goals.filter(g => g.status === 'active').sort((a, b) => b.streak - a.streak).slice(0, 5)`
— active goals, stably sorted descending by `streak` (JS
`Array.prototype.sort` is stable, and the comparator `b.streak - a.streak`
orders ties by original position), truncated to the top 5. The non-strict
`insertionSort` relation realises exactly this stable descending order. -/
def streakLeaders (s : GState) : List Goal :=
  ((s.goals.filter (fun g => g.status == GoalStatus.active)).insertionSort
    (fun a b => b.streak ≤ a.streak)).take 5

/-- Counterexample state for the deletion-purges-ledger claim: one goal
`"g1"` with a day-4 ledger entry recording its completion. -/
def cexS3 : GState :=
  { goals := [mkNewGoal "g1" "a" 1],
    dailyProgress := [DailyProgress.mk 4 [GoalEntry.mk "g1" true]] }

/-- A JS number as produced by the `todayStats` percentage arithmetic:
either an (idealised, rational) finite value, `NaN`, or `+Infinity`. -/
inductive JsNum where
  | num : Rat → JsNum
  | nan : JsNum
  | inf : JsNum
deriving DecidableEq, Repr

/-- The JS division `a / b` of two array lengths: `0/0` is `NaN`, `a/0` with
`a > 0` is `+Infinity`, otherwise the exact quotient. -/
def jsDivLen (a b : Nat) : JsNum :=
  if b = 0 then (if a = 0 then JsNum.nan else JsNum.inf)
  else JsNum.num ((a : Rat) / (b : Rat))

/-- Multiplication `x * 100` on JS numbers (`NaN` and `+Infinity` absorb). -/
def jsMul100 : JsNum → JsNum
  | JsNum.num q => JsNum.num (q * 100)
  | JsNum.nan => JsNum.nan
  | JsNum.inf => JsNum.inf

/-- The JS `Math.round`: `⌊x + 1/2⌋` on finite values, identity on `NaN` and
`+Infinity`. -/
def jsRound : JsNum → JsNum
  | JsNum.num q => JsNum.num ((⌊q + 1 / 2⌋ : Int) : Rat)
  | JsNum.nan => JsNum.nan
  | JsNum.inf => JsNum.inf

/-- The JS coercion `x || 0`: `NaN` (and `0`) coerce to `0`; `+Infinity` and nonzero finite
values pass through. -/
def jsOrZero : JsNum → JsNum
  | JsNum.num q => if q = 0 then JsNum.num 0 else JsNum.num q
  | JsNum.nan => JsNum.num 0
  | JsNum.inf => JsNum.inf

/-- Result record of the `todayStats` computation in `FocusTimer.tsx`. -/
structure TodayStats where
  total : Nat
  completed : Nat
  percentage : JsNum
deriving DecidableEq, Repr

/-- The expression `dailyProgress.find(p => p.date === today) || { date: today, goals: [] }`
(`FocusTimer.tsx` line 2423). -/
def todayProgressOf (s : GState) (today : Nat) : DailyProgress :=
  match s.dailyProgress.find? (fun p => p.date == today) with
  | some p => p
  | none => DailyProgress.mk today []

/-- The query `todayStats` from `FocusTimer.tsx` lines 2425-2429: `total` counts
active goals, `completed` counts the completed entries of today's ledger
record (regardless of the goals' status), and `percentage` is
`Math.round((completed / total) * 100) || 0` in JS arithmetic. -/
def todayStats (today : Nat) (s : GState) : TodayStats :=
  { total := (s.goals.filter (fun g => g.status == GoalStatus.active)).length,
    completed := ((todayProgressOf s today).goals.filter (fun e => e.completed)).length,
    percentage := jsOrZero (jsRound (jsMul100 (jsDivLen
      ((todayProgressOf s today).goals.filter (fun e => e.completed)).length
      (s.goals.filter (fun g => g.status == GoalStatus.active)).length))) }

/-- Modelled from the spec: "completed: count of active goals completed
today" — the spec's reading of the `completed` field, used to compare with
what the source computes. -/
def specActiveCompletedToday (today : Nat) (s : GState) : Nat :=
  (s.goals.filter (fun g => g.status == GoalStatus.active
    && isCompletedOn s.dailyProgress today g.id)).length

/-- Counterexample state for the `todayStats` claim: a single paused goal
whose completion is recorded in today's (day 10) ledger entry. -/
def cexS5 : GState :=
  { goals := [Goal.mk "g1" "t" GoalStatus.paused 1 1 1 1 (some 10)],
    dailyProgress := [DailyProgress.mk 10 [GoalEntry.mk "g1" true]] }

/-- A task of the simple zustand store at the top of `store.ts`. -/
structure STask where
  id : String
  title : String
  completed : Bool
  priority : Fin 4
deriving DecidableEq, Repr

/-- A goal of the simple zustand store at the top of `store.ts`. -/
structure SGoal where
  id : String
  title : String
  completed : Bool
  streak : Int
  lastCompleted : Option String
deriving DecidableEq, Repr

/-- The JSON document persisted under `"solaceflow-storage"`; each field may
be absent (`JSON.parse` of a partial object). -/
structure StoredDoc where
  tasks : Option (List STask)
  goals : Option (List SGoal)
  timerMinutes : Option Int
  timerSeconds : Option Int
deriving DecidableEq, Repr

/-- The empty document `loadState` falls back to. -/
def emptyDoc : StoredDoc :=
  { tasks := none, goals := none, timerMinutes := none, timerSeconds := none }

/-- The loader `loadState` from `store.ts` lines 37-44: read the stored string (if
any), `JSON.parse` it (modelled by the `parse` parameter, `none` standing
for a parse exception), and return `{}` on a missing item or on failure —
the `try/catch` means no error propagates. -/
def loadState (saved : Option String) (parse : String → Option StoredDoc) : StoredDoc :=
  match saved with
  | some s =>
    match parse s with
    | some doc => doc
    | none => emptyDoc
  | none => emptyDoc

/-- The state fields of the simple store in `store.ts`. -/
structure SimpleStore where
  tasks : List STask
  goals : List SGoal
  timerMinutes : Int
  timerSeconds : Int
  isTimerRunning : Bool
deriving DecidableEq, Repr

/-- The JS default `x || d` for a possibly-absent JS number field (`0` is falsy). -/
def jsOrInt (x : Option Int) (d : Int) : Int :=
  match x with
  | some v => if v = 0 then d else v
  | none => d

/-- The store initialisation in `store.ts` lines 57-61:
`initialState.tasks || []`, `initialState.goals || []`,
`initialState.timerMinutes || 25`, `initialState.timerSeconds || 0`,
`isTimerRunning: false`. -/
def initStore (doc : StoredDoc) : SimpleStore :=
  { tasks := doc.tasks.getD [],
    goals := doc.goals.getD [],
    timerMinutes := jsOrInt doc.timerMinutes 25,
    timerSeconds := jsOrInt doc.timerSeconds 0,
    isTimerRunning := false }

/-- The state the store starts from when nothing was persisted. -/
def defaultInitialState : SimpleStore :=
  { tasks := [], goals := [], timerMinutes := 25, timerSeconds := 0,
    isTimerRunning := false }

/-- What `loadFromStorage` in `FocusTimer.tsx` returns on success. -/
structure LoadedData where
  goals : List Goal
  progress : List DailyProgress
deriving DecidableEq, Repr

/-- The loader `loadFromStorage` from `FocusTimer.tsx` lines 2251-2270: `null` when no
goals were stored or when parsing/shape-mapping of either item throws
(everything is inside one `try/catch`); a missing progress item yields
`[]`. The `parseGoals`/`parseProgress` parameters model
`JSON.parse` plus the `.map` shape conversion, `none` standing for a thrown
exception. -/
def loadFromStorage (savedGoals : Option String) (savedProgress : Option String)
    (parseGoals : String → Option (List Goal))
    (parseProgress : String → Option (List DailyProgress)) : Option LoadedData :=
  match savedGoals with
  | none => none
  | some sg =>
    match parseGoals sg with
    | none => none
    | some gs =>
      match savedProgress with
      | none => some { goals := gs, progress := [] }
      | some sp =>
        match parseProgress sp with
        | none => none
        | some pr => some { goals := gs, progress := pr }

/-- The expression `loaded?.goals || defaultGoals` at the `useState` initialisation
(`FocusTimer.tsx` lines 2349-2352). -/
def initGoals (loaded : Option LoadedData) (defaultGoals : List Goal) : List Goal :=
  match loaded with
  | some dt => dt.goals
  | none => defaultGoals

/-- A parse that always fails (every input malformed). -/
def noParse : String → Option StoredDoc := fun _ => none

/-- A goals-parse that always fails. -/
def noParseGoals : String → Option (List Goal) := fun _ => none

/-- A progress-parse that always fails. -/
def noParseProgress : String → Option (List DailyProgress) := fun _ => none

/-! ### Helper lemmas -/

theorem find?_map_eq {α : Type} (f : α → α) (p : α → Bool) (l : List α)
    (hf : ∀ a, p (f a) = p a) : (l.map f).find? p = (l.find? p).map f := by
  induction l with
  | nil => rfl
  | cons a l ih =>
    cases h : p a with
    | true =>
      rw [List.map_cons, List.find?_cons_of_pos _ (by rw [hf]; exact h),
        List.find?_cons_of_pos _ h]
      rfl
    | false =>
      rw [List.map_cons, List.find?_cons_of_neg _ (by rw [hf a, h]; simp),
        List.find?_cons_of_neg _ (by rw [h]; simp), ih]

theorem getD_map_of_lt {α : Type} (f : α → α) (l : List α) (i : Nat) (d : α)
    (h : i < l.length) : (l.map f).getD i d = f (l.getD i d) := by
  induction l generalizing i with
  | nil => simp at h
  | cons a l ih =>
    cases i with
    | zero => rfl
    | succ n => simpa using ih n (by simpa using h)

theorem toggleUpd_id (t : Nat) (gid : String) (s : GState) (g : Goal) :
    (toggleUpd t gid s g).id = g.id := by
  unfold toggleUpd
  split <;> split <;> rfl

theorem toggleUpd_of_ne (t : Nat) (gid : String) (s : GState) (g : Goal)
    (h : (g.id == gid) = false) : toggleUpd t gid s g = g := by
  simp [toggleUpd, h]

theorem toggleUpd_undo (t : Nat) (gid : String) (s : GState) (g : Goal)
    (hc : isCompletedOn s.dailyProgress t gid = true) (hg : (g.id == gid) = true) :
    toggleUpd t gid s g = undoGoalUpdate g := by
  simp [toggleUpd, hc, hg]

theorem toggleUpd_mark (t : Nat) (gid : String) (s : GState) (g : Goal)
    (hc : isCompletedOn s.dailyProgress t gid = false) (hg : (g.id == gid) = true) :
    toggleUpd t gid s g =
      markGoalUpdate t (isCompletedOn s.dailyProgress (t - 1) gid) g := by
  simp [toggleUpd, hc, hg]

theorem toggle_of_notfound (t : Nat) (gid : String) (s : GState)
    (h : s.goals.find? (fun g => g.id == gid) = none) :
    toggleGoalCompletion t gid s = s := by
  unfold toggleGoalCompletion
  rw [h]

theorem toggle_goals_of_found (t : Nat) (gid : String) (s : GState) (g0 : Goal)
    (h : s.goals.find? (fun g => g.id == gid) = some g0) :
    (toggleGoalCompletion t gid s).goals = s.goals.map (toggleUpd t gid s) := by
  unfold toggleGoalCompletion
  rw [h]
  cases hc : isCompletedOn s.dailyProgress t gid <;> simp [hc]

theorem toggle_dp_undo (t : Nat) (gid : String) (s : GState) (g0 : Goal)
    (h : s.goals.find? (fun g => g.id == gid) = some g0)
    (hc : isCompletedOn s.dailyProgress t gid = true) :
    (toggleGoalCompletion t gid s).dailyProgress = setTodayFalse t gid s.dailyProgress := by
  unfold toggleGoalCompletion
  rw [h]
  simp [hc]

theorem toggle_dp_mark (t : Nat) (gid : String) (s : GState) (g0 : Goal)
    (h : s.goals.find? (fun g => g.id == gid) = some g0)
    (hc : isCompletedOn s.dailyProgress t gid = false) :
    (toggleGoalCompletion t gid s).dailyProgress = setTodayTrue t gid s.dailyProgress := by
  unfold toggleGoalCompletion
  rw [h]
  simp [hc]

theorem toggle_goals_length (t : Nat) (gid : String) (s : GState) :
    (toggleGoalCompletion t gid s).goals.length = s.goals.length := by
  cases h : s.goals.find? (fun g => g.id == gid) with
  | none => rw [toggle_of_notfound t gid s h]
  | some g0 => rw [toggle_goals_of_found t gid s g0 h]; simp

theorem findGoal_toggle (t : Nat) (gid : String) (s : GState) (g0 : Goal)
    (h : s.goals.find? (fun g => g.id == gid) = some g0) :
    findGoal (toggleGoalCompletion t gid s) gid = some (toggleUpd t gid s g0) := by
  unfold findGoal
  rw [toggle_goals_of_found t gid s g0 h,
    find?_map_eq _ _ _ (fun g => by rw [toggleUpd_id]), h]
  rfl

theorem isCompletedOn_setTodayFalse (t : Nat) (gid : String) (dp : List DailyProgress) :
    isCompletedOn (setTodayFalse t gid dp) t gid = false := by
  unfold isCompletedOn setTodayFalse
  rw [find?_map_eq _ _ _ (fun d => by split <;> rfl)]
  cases h : dp.find? (fun p => p.date == t) with
  | none => rfl
  | some d =>
    have hd : (d.date == t) = true := by simpa using List.find?_some h
    simp only [Option.map_some', hd, if_true]
    rw [find?_map_eq _ _ _ (fun e => by split <;> rfl)]
    cases he : d.goals.find? (fun e => e.goalId == gid) with
    | none => rfl
    | some e =>
      have hge : e.goalId = gid := by simpa using List.find?_some he
      simp [hge]

theorem isCompletedOn_setTodayTrue (t : Nat) (gid : String) (dp : List DailyProgress) :
    isCompletedOn (setTodayTrue t gid dp) t gid = true := by
  unfold isCompletedOn setTodayTrue
  cases h : dp.find? (fun p => p.date == t) with
  | none =>
    rw [List.find?_append, h]
    simp
  | some d =>
    have hd : (d.date == t) = true := by simpa using List.find?_some h
    rw [find?_map_eq _ _ _ (fun d2 => by split <;> (try split) <;> rfl), h]
    simp only [Option.map_some', hd, if_true]
    cases he : d.goals.find? (fun e => e.goalId == gid) with
    | none =>
      simp only [he, Option.isSome_none, Bool.false_eq_true, if_false]
      rw [List.find?_append, he]
      simp
    | some e =>
      have hge : e.goalId = gid := by simpa using List.find?_some he
      simp only [he, Option.isSome_some, if_true]
      rw [find?_map_eq _ _ _ (fun e2 => by split <;> rfl), he]
      simp [hge]

theorem filter_map_ne_today (t : Nat) (F : DailyProgress → DailyProgress)
    (hdate : ∀ d, (F d).date = d.date)
    (hoff : ∀ d, (d.date == t) = false → F d = d) (dp : List DailyProgress) :
    (dp.map F).filter (fun d => !(d.date == t)) =
      dp.filter (fun d => !(d.date == t)) := by
  induction dp with
  | nil => rfl
  | cons d l ih =>
    rw [List.map_cons, List.filter_cons, List.filter_cons]
    cases h : (d.date == t) with
    | true =>
      have h2 : ((F d).date == t) = true := by rw [hdate]; exact h
      simp [h, h2, ih]
    | false =>
      rw [hoff d h]
      simp [h, ih]

theorem setTodayFalse_frame (t : Nat) (gid : String) (dp : List DailyProgress) :
    (setTodayFalse t gid dp).filter (fun d => !(d.date == t)) =
      dp.filter (fun d => !(d.date == t)) := by
  unfold setTodayFalse
  exact filter_map_ne_today t _ (fun d => by split <;> rfl)
    (fun d hd => by simp [hd]) dp

theorem setTodayTrue_frame (t : Nat) (gid : String) (dp : List DailyProgress) :
    (setTodayTrue t gid dp).filter (fun d => !(d.date == t)) =
      dp.filter (fun d => !(d.date == t)) := by
  unfold setTodayTrue
  cases h : dp.find? (fun p => p.date == t) with
  | none =>
    rw [List.filter_append]
    simp
  | some d =>
    exact filter_map_ne_today t _ (fun d2 => by split <;> (try split) <;> rfl)
      (fun d2 hd => by simp [hd]) dp

theorem toggleUpd_bestStreak_le (t : Nat) (gid : String) (s : GState) (g : Goal) :
    g.bestStreak ≤ (toggleUpd t gid s g).bestStreak := by
  unfold toggleUpd undoGoalUpdate markGoalUpdate
  split <;> split <;> (try simp) <;> (try split) <;> omega

theorem toggleUpd_streak_nonneg (t : Nat) (gid : String) (s : GState) (g : Goal)
    (h : 0 ≤ g.streak) : 0 ≤ (toggleUpd t gid s g).streak := by
  unfold toggleUpd undoGoalUpdate markGoalUpdate
  split <;> split <;> (try simp) <;> (try split) <;> omega

theorem toggleUpd_inv (t : Nat) (gid : String) (s : GState) (g : Goal)
    (h0 : 0 ≤ g.streak) (h1 : g.streak ≤ g.bestStreak) :
    0 ≤ (toggleUpd t gid s g).streak ∧
      (toggleUpd t gid s g).streak ≤ (toggleUpd t gid s g).bestStreak := by
  unfold toggleUpd undoGoalUpdate markGoalUpdate
  split <;> split <;> (try simp) <;> (try split) <;> omega

theorem toggle_inv_preserved (t : Nat) (gid : String) (s : GState)
    (h : ∀ g ∈ s.goals, 0 ≤ g.streak ∧ g.streak ≤ g.bestStreak) :
    ∀ g ∈ (toggleGoalCompletion t gid s).goals,
      0 ≤ g.streak ∧ g.streak ≤ g.bestStreak := by
  cases hf : s.goals.find? (fun g => g.id == gid) with
  | none => rw [toggle_of_notfound t gid s hf]; exact h
  | some g0 =>
    rw [toggle_goals_of_found t gid s g0 hf]
    intro g hg
    rcases List.mem_map.mp hg with ⟨a, ha, rfl⟩
    exact toggleUpd_inv t gid s a (h a ha).1 (h a ha).2

theorem toggle_streak_nonneg_preserved (t : Nat) (gid : String) (s : GState)
    (h : ∀ g ∈ s.goals, 0 ≤ g.streak) :
    ∀ g ∈ (toggleGoalCompletion t gid s).goals, 0 ≤ g.streak := by
  cases hf : s.goals.find? (fun g => g.id == gid) with
  | none => rw [toggle_of_notfound t gid s hf]; exact h
  | some g0 =>
    rw [toggle_goals_of_found t gid s g0 hf]
    intro g hg
    rcases List.mem_map.mp hg with ⟨a, ha, rfl⟩
    exact toggleUpd_streak_nonneg t gid s a (h a ha)

theorem applyToggles_cons (op : Nat × String) (ops : List (Nat × String)) (s : GState) :
    applyToggles (op :: ops) s = applyToggles ops (toggleGoalCompletion op.1 op.2 s) :=
  rfl

theorem applyToggles_append_one (ops : List (Nat × String)) (op : Nat × String)
    (s : GState) :
    applyToggles (ops ++ [op]) s = toggleGoalCompletion op.1 op.2 (applyToggles ops s) := by
  unfold applyToggles
  rw [List.foldl_append]
  rfl

theorem applyToggles_inv (ops : List (Nat × String)) (s : GState)
    (h : ∀ g ∈ s.goals, 0 ≤ g.streak ∧ g.streak ≤ g.bestStreak) :
    ∀ g ∈ (applyToggles ops s).goals, 0 ≤ g.streak ∧ g.streak ≤ g.bestStreak := by
  induction ops generalizing s with
  | nil => exact h
  | cons op ops ih =>
    rw [applyToggles_cons]
    exact ih _ (toggle_inv_preserved op.1 op.2 s h)

theorem applyToggles_streak_nonneg (ops : List (Nat × String)) (s : GState)
    (h : ∀ g ∈ s.goals, 0 ≤ g.streak) :
    ∀ g ∈ (applyToggles ops s).goals, 0 ≤ g.streak := by
  induction ops generalizing s with
  | nil => exact h
  | cons op ops ih =>
    rw [applyToggles_cons]
    exact ih _ (toggle_streak_nonneg_preserved op.1 op.2 s h)

theorem applyToggles_length (ops : List (Nat × String)) (s : GState) :
    (applyToggles ops s).goals.length = s.goals.length := by
  induction ops generalizing s with
  | nil => rfl
  | cons op ops ih =>
    rw [applyToggles_cons, ih, toggle_goals_length]

theorem getD_mem_of_lt {α : Type} (l : List α) (i : Nat) (d : α)
    (h : i < l.length) : l.getD i d ∈ l := by
  induction l generalizing i with
  | nil => simp at h
  | cons a l ih =>
    cases i with
    | zero => exact List.mem_cons_self a l
    | succ n => exact List.mem_cons_of_mem a (ih n (by simpa using h))

/-! ### Claim theorems -/

/-- Claim C7: for every single goal and every sequence of `toggleCompletion` calls
on it starting from creation (all created goals have `streak = 0`, so the
hypothesis `0 ≤ streak` for every goal of the start state covers creation),
`goal.streak >= 0` holds after every call. -/
theorem claim_streak_nonneg (ops : List (Nat × String)) (s : GState) (g : Goal)
    (h0 : ∀ g0 ∈ s.goals, 0 ≤ g0.streak)
    (hg : g ∈ (applyToggles ops s).goals) : 0 ≤ g.streak :=
  applyToggles_streak_nonneg ops s h0 g hg

/-- Claim C4: starting from any state whose goals satisfy `0 ≤ streak` and
`streak ≤ bestStreak` (freshly created goals have `streak = bestStreak = 0`),
after any sequence of toggles `bestStreak >= streak` holds for every goal,
and performing one further toggle never decreases any goal's `bestStreak`
(in particular the Undo branch never changes it). -/
theorem claim_bestStreak_inv_mono (ops : List (Nat × String)) (op : Nat × String)
    (s : GState) (i : Nat)
    (hinv : ∀ g ∈ s.goals, 0 ≤ g.streak ∧ g.streak ≤ g.bestStreak)
    (hi : i < s.goals.length) :
    ((applyToggles ops s).goals.getD i defGoal).streak ≤
        ((applyToggles ops s).goals.getD i defGoal).bestStreak ∧
      ((applyToggles ops s).goals.getD i defGoal).bestStreak ≤
        ((applyToggles (ops ++ [op]) s).goals.getD i defGoal).bestStreak := by
  have hlen : i < (applyToggles ops s).goals.length := by
    rw [applyToggles_length]; exact hi
  constructor
  · exact (applyToggles_inv ops s hinv _ (getD_mem_of_lt _ i defGoal hlen)).2
  · rw [applyToggles_append_one]
    cases hf : (applyToggles ops s).goals.find? (fun g => g.id == op.2) with
    | none => rw [toggle_of_notfound op.1 op.2 _ hf]
    | some g0 =>
      rw [toggle_goals_of_found op.1 op.2 _ g0 hf, getD_map_of_lt _ _ _ _ hlen]
      exact toggleUpd_bestStreak_le op.1 op.2 _ _

/-- Claim C8: `toggleCompletion` with a `goalId` matching no existing goal is a
no-op: the whole state (goal collection and daily-progress ledger) is
returned unchanged, and the operation is a total function (no error
surfaces). -/
theorem claim_toggle_missing_noop (t : Nat) (gid : String) (s : GState)
    (h : findGoal s gid = none) : toggleGoalCompletion t gid s = s :=
  toggle_of_notfound t gid s h

/-- Claim C10: `toggleCompletion(goalId)` leaves every goal whose id differs from
`goalId` unchanged (positionally), and leaves the sublist of ledger entries
whose date is not today unchanged. -/
theorem claim_toggle_frame (t : Nat) (gid : String) (s : GState) (i : Nat)
    (hi : i < s.goals.length)
    (hne : (s.goals.getD i defGoal).id ≠ gid) :
    (toggleGoalCompletion t gid s).goals.length = s.goals.length ∧
      (toggleGoalCompletion t gid s).goals.getD i defGoal = s.goals.getD i defGoal ∧
      (toggleGoalCompletion t gid s).dailyProgress.filter (fun d => !(d.date == t)) =
        s.dailyProgress.filter (fun d => !(d.date == t)) := by
  refine ⟨toggle_goals_length t gid s, ?_, ?_⟩
  · cases hf : s.goals.find? (fun g => g.id == gid) with
    | none => rw [toggle_of_notfound t gid s hf]
    | some g0 =>
      rw [toggle_goals_of_found t gid s g0 hf, getD_map_of_lt _ _ _ _ hi]
      exact toggleUpd_of_ne t gid s _ (by simpa using hne)
  · cases hf : s.goals.find? (fun g => g.id == gid) with
    | none => rw [toggle_of_notfound t gid s hf]
    | some g0 =>
      cases hc : isCompletedOn s.dailyProgress t gid with
      | true =>
        rw [toggle_dp_undo t gid s g0 hf hc]
        exact setTodayFalse_frame t gid s.dailyProgress
      | false =>
        rw [toggle_dp_mark t gid s g0 hf hc]
        exact setTodayTrue_frame t gid s.dailyProgress

/-- Witness for C7 at a concrete three-toggle run. -/
theorem claim_streak_nonneg_witness :
    (0 : Int) ≤ (Goal.mk "g1" "t" GoalStatus.active 1 1 1 1 (some 2)).streak :=
  claim_streak_nonneg [(1, "g1"), (1, "g1"), (2, "g1")]
    { goals := [mkNewGoal "g1" "t" 1], dailyProgress := [] }
    (Goal.mk "g1" "t" GoalStatus.active 1 1 1 1 (some 2))
    (by decide) (by decide)

/-- Witness for C4 at a concrete toggle run (a Complete followed by an Undo). -/
theorem claim_bestStreak_inv_mono_witness :
    (((applyToggles [(1, "g1")]
          { goals := [mkNewGoal "g1" "t" 1], dailyProgress := [] }).goals.getD 0
            defGoal).streak ≤
        ((applyToggles [(1, "g1")]
          { goals := [mkNewGoal "g1" "t" 1], dailyProgress := [] }).goals.getD 0
            defGoal).bestStreak) ∧
      ((applyToggles [(1, "g1")]
          { goals := [mkNewGoal "g1" "t" 1], dailyProgress := [] }).goals.getD 0
            defGoal).bestStreak ≤
        ((applyToggles ([(1, "g1")] ++ [(1, "g1")])
          { goals := [mkNewGoal "g1" "t" 1], dailyProgress := [] }).goals.getD 0
            defGoal).bestStreak :=
  claim_bestStreak_inv_mono [(1, "g1")] (1, "g1")
    { goals := [mkNewGoal "g1" "t" 1], dailyProgress := [] } 0
    (by decide) (by decide)

/-- Witness for C8 at a concrete state holding only goal `"g1"`. -/
theorem claim_toggle_missing_noop_witness :
    toggleGoalCompletion 3 "zz"
        { goals := [mkNewGoal "g1" "t" 1], dailyProgress := [] } =
      { goals := [mkNewGoal "g1" "t" 1], dailyProgress := [] } :=
  claim_toggle_missing_noop 3 "zz" _ (by decide)

/-- Witness for C10: toggling `"g1"` on day 5 leaves goal `"g2"` and the
day-4 ledger entry untouched. -/
theorem claim_toggle_frame_witness :
    ((toggleGoalCompletion 5 "g1"
        { goals := [mkNewGoal "g1" "a" 1, mkNewGoal "g2" "b" 1],
          dailyProgress :=
            [{ date := 4, goals := [{ goalId := "g1", completed := true }] }] }).goals.length =
      (GState.mk [mkNewGoal "g1" "a" 1, mkNewGoal "g2" "b" 1]
        [{ date := 4, goals := [{ goalId := "g1", completed := true }] }]).goals.length) ∧
      ((toggleGoalCompletion 5 "g1"
          { goals := [mkNewGoal "g1" "a" 1, mkNewGoal "g2" "b" 1],
            dailyProgress :=
              [{ date := 4, goals := [{ goalId := "g1", completed := true }] }] }).goals.getD 1
            defGoal =
        (GState.mk [mkNewGoal "g1" "a" 1, mkNewGoal "g2" "b" 1]
          [{ date := 4, goals := [{ goalId := "g1", completed := true }] }]).goals.getD 1
            defGoal) ∧
      ((toggleGoalCompletion 5 "g1"
          { goals := [mkNewGoal "g1" "a" 1, mkNewGoal "g2" "b" 1],
            dailyProgress :=
              [{ date := 4, goals := [{ goalId := "g1", completed := true }] }] }).dailyProgress.filter
            (fun d => !(d.date == 5)) =
        (GState.mk [mkNewGoal "g1" "a" 1, mkNewGoal "g2" "b" 1]
          [{ date := 4, goals := [{ goalId := "g1", completed := true }] }]).dailyProgress.filter
            (fun d => !(d.date == 5))) :=
  claim_toggle_frame 5 "g1"
    (GState.mk [mkNewGoal "g1" "a" 1, mkNewGoal "g2" "b" 1]
      [{ date := 4, goals := [{ goalId := "g1", completed := true }] }]) 1
    (by decide) (by decide)

theorem scenario_step1 (d : Nat) :
    toggleGoalCompletion d "g1" scenarioS0 = scenarioS1 d := rfl

theorem scenario_flag2 (d : Nat) :
    isCompletedOn (scenarioS1 d).dailyProgress (d + 1) "g1" = false := by
  unfold scenarioS1 isCompletedOn
  rw [List.find?_cons_of_neg _ (by simp), List.find?_nil]

theorem scenario_cy2 (d : Nat) :
    isCompletedOn (scenarioS1 d).dailyProgress (d + 1 - 1) "g1" = true := by
  have h : d + 1 - 1 = d := by omega
  rw [h]
  unfold scenarioS1 isCompletedOn
  rw [List.find?_cons_of_pos _ (by simp)]
  rfl

theorem scenario_step2 (d : Nat) :
    toggleGoalCompletion (d + 1) "g1" (scenarioS1 d) = scenarioS2 d := by
  have hfind : (scenarioS1 d).goals.find? (fun g => g.id == "g1") = some (scenarioG1 d) := rfl
  have hgoals : (toggleGoalCompletion (d + 1) "g1" (scenarioS1 d)).goals = [scenarioG2 d] := by
    rw [toggle_goals_of_found _ _ _ _ hfind]
    show [toggleUpd (d + 1) "g1" (scenarioS1 d) (scenarioG1 d)] = [scenarioG2 d]
    rw [toggleUpd_mark _ _ _ (scenarioG1 d) (scenario_flag2 d) rfl, scenario_cy2 d]
    rfl
  have hdp : (toggleGoalCompletion (d + 1) "g1" (scenarioS1 d)).dailyProgress =
      (scenarioS2 d).dailyProgress := by
    rw [toggle_dp_mark _ _ _ _ hfind (scenario_flag2 d)]
    unfold setTodayTrue scenarioS1
    rw [List.find?_cons_of_neg _ (by simp), List.find?_nil]
    rfl
  calc toggleGoalCompletion (d + 1) "g1" (scenarioS1 d)
      = ⟨(toggleGoalCompletion (d + 1) "g1" (scenarioS1 d)).goals,
          (toggleGoalCompletion (d + 1) "g1" (scenarioS1 d)).dailyProgress⟩ := rfl
    _ = scenarioS2 d := by rw [hgoals, hdp]; rfl

theorem scenario_flag3 (d : Nat) :
    isCompletedOn (scenarioS2 d).dailyProgress (d + 3) "g1" = false := by
  unfold scenarioS2 isCompletedOn
  rw [List.find?_cons_of_neg _ (by simp), List.find?_cons_of_neg _ (by simp),
    List.find?_nil]

theorem scenario_cy3 (d : Nat) :
    isCompletedOn (scenarioS2 d).dailyProgress (d + 3 - 1) "g1" = false := by
  have h : d + 3 - 1 = d + 2 := by omega
  rw [h]
  unfold scenarioS2 isCompletedOn
  rw [List.find?_cons_of_neg _ (by simp), List.find?_cons_of_neg _ (by simp),
    List.find?_nil]

/-- Claim C1: a Complete transition of `toggleGoalCompletion` (the goal exists and
is not completed today per the ledger) sets `streak` to `goal.streak + 1` if
the ledger shows the goal completed yesterday and to `1` otherwise, and sets
`bestStreak` to the max of the old `bestStreak` and the new streak.
Concretely, on a fresh goal: toggling on day `d` gives `streak = 1`,
`bestStreak = 1`; on day `d+1` gives `streak = 2`, `bestStreak = 2`; on day
`d+3` (day `d+2` skipped) gives `streak = 1` with `bestStreak` still `2`. -/
theorem claim_complete_streak_rule (d : Nat) :
    (∀ (t : Nat) (gid : String) (s : GState) (g : Goal),
        findGoal s gid = some g →
        isCompletedOn s.dailyProgress t gid = false →
        Option.map Goal.streak (findGoal (toggleGoalCompletion t gid s) gid) =
            some (if isCompletedOn s.dailyProgress (t - 1) gid
              then g.streak + 1 else 1) ∧
          Option.map Goal.bestStreak (findGoal (toggleGoalCompletion t gid s) gid) =
            some (max g.bestStreak (if isCompletedOn s.dailyProgress (t - 1) gid
              then g.streak + 1 else 1))) ∧
      Option.map Goal.streak
          (findGoal (toggleGoalCompletion d "g1" scenarioS0) "g1") = some 1 ∧
      Option.map Goal.bestStreak
          (findGoal (toggleGoalCompletion d "g1" scenarioS0) "g1") = some 1 ∧
      Option.map Goal.streak
          (findGoal (toggleGoalCompletion (d + 1)
            "g1" (toggleGoalCompletion d "g1" scenarioS0)) "g1") = some 2 ∧
      Option.map Goal.bestStreak
          (findGoal (toggleGoalCompletion (d + 1)
            "g1" (toggleGoalCompletion d "g1" scenarioS0)) "g1") = some 2 ∧
      Option.map Goal.streak
          (findGoal (toggleGoalCompletion (d + 3) "g1" (toggleGoalCompletion (d + 1)
            "g1" (toggleGoalCompletion d "g1" scenarioS0))) "g1") = some 1 ∧
      Option.map Goal.bestStreak
          (findGoal (toggleGoalCompletion (d + 3) "g1" (toggleGoalCompletion (d + 1)
            "g1" (toggleGoalCompletion d "g1" scenarioS0))) "g1") = some 2 := by
  have hgen : ∀ (t : Nat) (gid : String) (s : GState) (g : Goal),
      findGoal s gid = some g →
      isCompletedOn s.dailyProgress t gid = false →
      Option.map Goal.streak (findGoal (toggleGoalCompletion t gid s) gid) =
          some (if isCompletedOn s.dailyProgress (t - 1) gid
            then g.streak + 1 else 1) ∧
        Option.map Goal.bestStreak (findGoal (toggleGoalCompletion t gid s) gid) =
          some (max g.bestStreak (if isCompletedOn s.dailyProgress (t - 1) gid
            then g.streak + 1 else 1)) := by
    intro t gid s g hf hnc
    have hg : (g.id == gid) = true := by simpa using List.find?_some hf
    rw [findGoal_toggle t gid s g hf, toggleUpd_mark t gid s g hnc hg]
    constructor <;> simp [markGoalUpdate]
  have e1 := scenario_step1 d
  have e2 := scenario_step2 d
  have hfind3 : (scenarioS2 d).goals.find? (fun g => g.id == "g1") =
      some (scenarioG2 d) := rfl
  have h3 : findGoal (toggleGoalCompletion (d + 3) "g1" (scenarioS2 d)) "g1" =
      some (markGoalUpdate (d + 3) false (scenarioG2 d)) := by
    rw [findGoal_toggle _ _ _ _ hfind3,
      toggleUpd_mark _ _ _ (scenarioG2 d) (scenario_flag3 d) rfl, scenario_cy3 d]
  refine ⟨hgen, ?_, ?_, ?_, ?_, ?_, ?_⟩ <;> rw [e1]
  · rfl
  · rfl
  · rw [e2]; rfl
  · rw [e2]; rfl
  · rw [e2, h3]; rfl
  · rw [e2, h3]; rfl

/-- Witness for C1: the general Complete rule applied to the fresh scenario
state on day 7 yields streak 1 and bestStreak 1. -/
theorem claim_complete_streak_rule_witness :
    Option.map Goal.streak (findGoal (toggleGoalCompletion 7 "g1" scenarioS0) "g1") =
        some 1 ∧
      Option.map Goal.bestStreak
          (findGoal (toggleGoalCompletion 7 "g1" scenarioS0) "g1") = some 1 :=
  ⟨(((claim_complete_streak_rule 7).1) 7 "g1" scenarioS0 freshG1
      (by decide) (by decide)).1.trans (by decide),
    (((claim_complete_streak_rule 7).1) 7 "g1" scenarioS0 freshG1
      (by decide) (by decide)).2.trans (by decide)⟩

/-- Claim C2 (amended): for a goal not completed today, toggling twice on the same
day always restores `currentCount` (for nonnegative counts) and the ledger's
effective completion flag; `streak` is restored when the ledger shows the
goal completed yesterday or its streak was `0`, but not in general (see the
counterexample); `bestStreak` is not restored. -/
theorem claim_toggle_twice_restore (t : Nat) (gid : String) (s : GState) (g : Goal)
    (hf : findGoal s gid = some g)
    (hnc : isCompletedOn s.dailyProgress t gid = false)
    (hcc : 0 ≤ g.currentCount) (hss : 0 ≤ g.streak) :
    Option.map Goal.currentCount
        (findGoal (toggleGoalCompletion t gid (toggleGoalCompletion t gid s)) gid) =
      some g.currentCount ∧
    ((isCompletedOn s.dailyProgress (t - 1) gid = true ∨ g.streak = 0) →
      Option.map Goal.streak
          (findGoal (toggleGoalCompletion t gid (toggleGoalCompletion t gid s)) gid) =
        some g.streak) ∧
    isCompletedOn
        (toggleGoalCompletion t gid (toggleGoalCompletion t gid s)).dailyProgress t gid
      = false := by
  have hg : (g.id == gid) = true := by simpa using List.find?_some hf
  have hfind1 : findGoal (toggleGoalCompletion t gid s) gid =
      some (markGoalUpdate t (isCompletedOn s.dailyProgress (t - 1) gid) g) := by
    rw [findGoal_toggle t gid s g hf, toggleUpd_mark t gid s g hnc hg]
  have hdp1 : (toggleGoalCompletion t gid s).dailyProgress =
      setTodayTrue t gid s.dailyProgress := toggle_dp_mark t gid s g hf hnc
  have hc1 : isCompletedOn (toggleGoalCompletion t gid s).dailyProgress t gid = true := by
    rw [hdp1]; exact isCompletedOn_setTodayTrue t gid s.dailyProgress
  have hgm : ((markGoalUpdate t (isCompletedOn s.dailyProgress (t - 1) gid) g).id == gid)
      = true := by simpa [markGoalUpdate] using hg
  have hfind2 := findGoal_toggle t gid (toggleGoalCompletion t gid s) _ hfind1
  rw [toggleUpd_undo t gid (toggleGoalCompletion t gid s) _ hc1 hgm] at hfind2
  have hdp2 : (toggleGoalCompletion t gid (toggleGoalCompletion t gid s)).dailyProgress =
      setTodayFalse t gid (toggleGoalCompletion t gid s).dailyProgress :=
    toggle_dp_undo t gid (toggleGoalCompletion t gid s) _ hfind1 hc1
  refine ⟨?_, ?_, ?_⟩
  · rw [hfind2]
    simp only [Option.map_some']
    congr 1
    simp [undoGoalUpdate, markGoalUpdate]
    omega
  · intro hch
    rw [hfind2]
    simp only [Option.map_some']
    congr 1
    rcases hch with hch | hch
    · rw [hch]
      simp [undoGoalUpdate, markGoalUpdate]
      omega
    · cases hcy : isCompletedOn s.dailyProgress (t - 1) gid <;>
        simp [undoGoalUpdate, markGoalUpdate, hch] <;> omega
  · rw [hdp2]
    exact isCompletedOn_setTodayFalse t gid _

/-- Counterexample for C2 as stated: goal `"g1"` of `cexS2` has `streak = 5`
and is completed neither today (day 10) nor yesterday; toggling twice on
day 10 leaves it with `streak = 0`, so the pre-call streak is not
restored. -/
theorem claim_toggle_twice_cex :
    Option.map Goal.streak (findGoal cexS2 "g1") = some 5 ∧
      Option.map Goal.streak
          (findGoal (toggleGoalCompletion 10 "g1"
            (toggleGoalCompletion 10 "g1" cexS2)) "g1") = some 0 ∧
      isCompletedOn cexS2.dailyProgress 10 "g1" = false := by
  decide

/-- Witness for C2 at a fresh goal toggled twice on day 4. -/
theorem claim_toggle_twice_restore_witness :
    Option.map Goal.currentCount
        (findGoal (toggleGoalCompletion 4 "g1" (toggleGoalCompletion 4 "g1"
          (GState.mk [mkNewGoal "g1" "t" 1] []))) "g1") = some 0 ∧
      Option.map Goal.streak
          (findGoal (toggleGoalCompletion 4 "g1" (toggleGoalCompletion 4 "g1"
            (GState.mk [mkNewGoal "g1" "t" 1] []))) "g1") = some 0 ∧
      isCompletedOn
          (toggleGoalCompletion 4 "g1" (toggleGoalCompletion 4 "g1"
            (GState.mk [mkNewGoal "g1" "t" 1] []))).dailyProgress 4 "g1" = false := by
  obtain ⟨h1, h2, h3⟩ := claim_toggle_twice_restore 4 "g1"
    (GState.mk [mkNewGoal "g1" "t" 1] []) (mkNewGoal "g1" "t" 1)
    (by decide) (by decide) (by decide) (by decide)
  exact ⟨h1.trans (by decide), (h2 (Or.inr (by decide))).trans (by decide), h3⟩

/-- Claim C6 (amended): for a goal completed today per the ledger whose
`currentCount` is at least `1`, the Undo branch sets `currentCount` to
`max 0 (currentCount - 1)` and sets `lastCompleted` to `null` exactly when
the resulting count is `0`; otherwise the previous (possibly stale) value is
kept. (When the pre-call count is `0` — see the counterexample — the
resulting count is `0` yet `lastCompleted` is kept.) -/
theorem claim_undo_count_lastCompleted (t : Nat) (gid : String) (s : GState) (g : Goal)
    (hf : findGoal s gid = some g)
    (hc : isCompletedOn s.dailyProgress t gid = true)
    (h1 : 1 ≤ g.currentCount) :
    Option.map Goal.currentCount (findGoal (toggleGoalCompletion t gid s) gid) =
        some (max 0 (g.currentCount - 1)) ∧
      Option.map Goal.lastCompleted (findGoal (toggleGoalCompletion t gid s) gid) =
        some (if max 0 (g.currentCount - 1) = 0 then none else g.lastCompleted) := by
  have hg : (g.id == gid) = true := by simpa using List.find?_some hf
  rw [findGoal_toggle t gid s g hf, toggleUpd_undo t gid s g hc hg]
  constructor
  · rfl
  · simp only [undoGoalUpdate, Option.map_some']
    congr 1
    by_cases h2 : g.currentCount = 1
    · simp [h2]
    · have hbe : (g.currentCount == 1) = false := by simpa using h2
      have hmax : ¬ (max 0 (g.currentCount - 1) = 0) := by omega
      simp [hbe, hmax]

/-- Counterexample for C6 as stated: in `cexS6` goal `"g1"` is completed
today (day 10) with `currentCount = 0` and `lastCompleted = some 5`; the
Undo leaves the resulting `currentCount` at `0` yet keeps
`lastCompleted = some 5`, refuting the claimed "if and only if the resulting
currentCount is 0". -/
theorem claim_undo_lastCompleted_cex :
    isCompletedOn cexS6.dailyProgress 10 "g1" = true ∧
      Option.map Goal.currentCount (findGoal (toggleGoalCompletion 10 "g1" cexS6) "g1") =
        some 0 ∧
      Option.map Goal.lastCompleted (findGoal (toggleGoalCompletion 10 "g1" cexS6) "g1") =
        some (some 5) := by
  decide

/-- Witness for C6 at a goal with `currentCount = 2` completed on day 9. -/
theorem claim_undo_count_lastCompleted_witness :
    Option.map Goal.currentCount
        (findGoal (toggleGoalCompletion 9 "g1"
          (GState.mk [Goal.mk "g1" "t" GoalStatus.active 1 2 1 1 (some 3)]
            [DailyProgress.mk 9 [GoalEntry.mk "g1" true]])) "g1") = some 1 ∧
      Option.map Goal.lastCompleted
          (findGoal (toggleGoalCompletion 9 "g1"
            (GState.mk [Goal.mk "g1" "t" GoalStatus.active 1 2 1 1 (some 3)]
              [DailyProgress.mk 9 [GoalEntry.mk "g1" true]])) "g1") = some (some 3) := by
  obtain ⟨h1, h2⟩ := claim_undo_count_lastCompleted 9 "g1"
    (GState.mk [Goal.mk "g1" "t" GoalStatus.active 1 2 1 1 (some 3)]
      [DailyProgress.mk 9 [GoalEntry.mk "g1" true]])
    (Goal.mk "g1" "t" GoalStatus.active 1 2 1 1 (some 3))
    (by decide) (by decide) (by decide)
  exact ⟨h1.trans (by decide), h2.trans (by decide)⟩


/-- Counterexample for C3 as stated: deleting `"g1"` from `cexS3` removes
the goal but the day-4 ledger entry still contains a record for `"g1"`
(`deleteGoal` never touches `dailyProgress`). -/
theorem claim_deleteGoal_cex :
    (deleteGoal "g1" cexS3).goals = [] ∧
      ((deleteGoal "g1" cexS3).dailyProgress.any
        (fun day => day.goals.any (fun e => e.goalId == "g1"))) = true := by
  decide

/-- Claim C3 (amended): `deleteGoal(id)` removes every goal with that id from the
goal collection — so goal-derived aggregates such as `streakLeaders` never
reference the deleted id — but leaves the daily-progress ledger entirely
unchanged; ledger records for the deleted id persist on every day. -/
theorem claim_deleteGoal_frame (gid : String) (s : GState) :
    (deleteGoal gid s).dailyProgress = s.dailyProgress ∧
      (∀ g ∈ (deleteGoal gid s).goals, g.id ≠ gid) ∧
      (∀ g ∈ s.goals, g.id ≠ gid → g ∈ (deleteGoal gid s).goals) ∧
      (∀ g ∈ streakLeaders (deleteGoal gid s), g.id ≠ gid) := by
  have hmem : ∀ g ∈ (deleteGoal gid s).goals, g.id ≠ gid := by
    intro g hg
    have := List.mem_filter.mp hg
    simpa using this.2
  refine ⟨rfl, hmem, ?_, ?_⟩
  · intro g hg hne
    exact List.mem_filter.mpr ⟨hg, by simpa using hne⟩
  · intro g hg
    have h1 : g ∈ ((deleteGoal gid s).goals.filter
        (fun g => g.status == GoalStatus.active)).insertionSort
          (fun a b => b.streak ≤ a.streak) := List.take_subset 5 _ hg
    have h2 : g ∈ (deleteGoal gid s).goals.filter
        (fun g => g.status == GoalStatus.active) :=
      (List.mem_insertionSort _).mp h1
    exact hmem g (List.mem_filter.mp h2).1

/-- Witness for C3 (amended) on a two-goal state: deleting `"g1"` keeps the
ledger and keeps goal `"g2"`. -/
theorem claim_deleteGoal_frame_witness :
    (deleteGoal "g1"
        (GState.mk [mkNewGoal "g1" "a" 1, mkNewGoal "g2" "b" 1]
          [DailyProgress.mk 4 [GoalEntry.mk "g1" true]])).dailyProgress =
      (GState.mk [mkNewGoal "g1" "a" 1, mkNewGoal "g2" "b" 1]
        [DailyProgress.mk 4 [GoalEntry.mk "g1" true]]).dailyProgress ∧
      mkNewGoal "g2" "b" 1 ∈ (deleteGoal "g1"
        (GState.mk [mkNewGoal "g1" "a" 1, mkNewGoal "g2" "b" 1]
          [DailyProgress.mk 4 [GoalEntry.mk "g1" true]])).goals := by
  obtain ⟨hdp, h2, h3, h4⟩ := claim_deleteGoal_frame "g1"
    (GState.mk [mkNewGoal "g1" "a" 1, mkNewGoal "g2" "b" 1]
      [DailyProgress.mk 4 [GoalEntry.mk "g1" true]])
  exact ⟨hdp, h3 (mkNewGoal "g2" "b" 1) (by decide) (by decide)⟩

/-- Counterexample for C5 as stated: in `cexS5` the only goal is paused yet
completed in today's ledger, so `todayStats` reports `total = 0` but
`completed = 1` (the spec's "count of active goals completed today" is `0`),
and `percentage` is `+Infinity` (`1/0` escapes the `|| 0` guard), not `0`. -/
theorem claim_todayStats_cex :
    (todayStats 10 cexS5).total = 0 ∧
      (todayStats 10 cexS5).completed = 1 ∧
      specActiveCompletedToday 10 cexS5 = 0 ∧
      (todayStats 10 cexS5).percentage = JsNum.inf := by
  decide

/-- Claim C5 (amended): `todayStats` reports `total` = number of active goals and
`completed` = number of completed entries in today's ledger record
(regardless of each goal's status); `percentage` is
`round(completed/total*100)` when `total > 0`, is `0` when `total = 0` and
`completed = 0` (the `NaN` case the `|| 0` coerces), and is `+Infinity` when
`total = 0` and `completed > 0`. -/
theorem claim_todayStats_spec (today : Nat) (s : GState) :
    (todayStats today s).total =
        (s.goals.filter (fun g => g.status == GoalStatus.active)).length ∧
      (todayStats today s).completed =
        ((todayProgressOf s today).goals.filter (fun e => e.completed)).length ∧
      ((todayStats today s).total = 0 → (todayStats today s).completed = 0 →
        (todayStats today s).percentage = JsNum.num 0) ∧
      ((todayStats today s).total = 0 → 0 < (todayStats today s).completed →
        (todayStats today s).percentage = JsNum.inf) ∧
      (0 < (todayStats today s).total →
        (todayStats today s).percentage =
          JsNum.num ((⌊((todayStats today s).completed : Rat) /
            ((todayStats today s).total : Rat) * 100 + 1 / 2⌋ : Int) : Rat)) := by
  refine ⟨rfl, rfl, ?_, ?_, ?_⟩
  · intro h0 hc
    simp only [todayStats] at h0 hc ⊢
    simp [jsDivLen, h0, hc, jsMul100, jsRound, jsOrZero]
  · intro h0 hc
    simp only [todayStats] at h0 hc ⊢
    have hne : ((todayProgressOf s today).goals.filter
        (fun e => e.completed)).length ≠ 0 := by
      omega
    simp [jsDivLen, h0, hne, jsMul100, jsRound, jsOrZero]
  · intro hT
    simp only [todayStats] at hT ⊢
    have hne : (s.goals.filter (fun g => g.status == GoalStatus.active)).length ≠ 0 := by
      omega
    simp only [jsDivLen, hne, if_false, jsMul100, jsRound, jsOrZero]
    split
    · rename_i hq
      rw [hq]
    · rfl

/-- Witness for C5 (amended) on one active goal completed today: the
percentage is exactly 100. -/
theorem claim_todayStats_spec_witness :
    (todayStats 3 (GState.mk [mkNewGoal "g1" "t" 1]
        [DailyProgress.mk 3 [GoalEntry.mk "g1" true]])).total = 1 ∧
      (todayStats 3 (GState.mk [mkNewGoal "g1" "t" 1]
        [DailyProgress.mk 3 [GoalEntry.mk "g1" true]])).completed = 1 ∧
      (todayStats 3 (GState.mk [mkNewGoal "g1" "t" 1]
        [DailyProgress.mk 3 [GoalEntry.mk "g1" true]])).percentage = JsNum.num 100 := by
  obtain ⟨h1, h2, h3, h4, h5⟩ := claim_todayStats_spec 3
    (GState.mk [mkNewGoal "g1" "t" 1] [DailyProgress.mk 3 [GoalEntry.mk "g1" true]])
  have ht : (todayStats 3 (GState.mk [mkNewGoal "g1" "t" 1]
      [DailyProgress.mk 3 [GoalEntry.mk "g1" true]])).total = 1 := h1.trans (by decide)
  have hc : (todayStats 3 (GState.mk [mkNewGoal "g1" "t" 1]
      [DailyProgress.mk 3 [GoalEntry.mk "g1" true]])).completed = 1 := h2.trans (by decide)
  have h5p := h5 (by decide)
  rw [ht, hc] at h5p
  refine ⟨ht, hc, h5p.trans ?_⟩
  congr 1
  norm_num

/-- Claim C9: when the persisted document is missing or fails to parse (or, for
the `FocusTimer` loader, fails the shape-mapping inside its `try/catch`),
loading falls back to the empty/default initial state; both loaders are
total functions, so no error surfaces at startup. -/
theorem claim_load_malformed_defaults (str : String)
    (parse : String → Option StoredDoc) (hparse : parse str = none)
    (sg sp : String) (parseGoals : String → Option (List Goal))
    (parseProgress : String → Option (List DailyProgress))
    (hpg : parseGoals sg = none) (dGoals : List Goal) :
    loadState (some str) parse = emptyDoc ∧
      initStore (loadState (some str) parse) = defaultInitialState ∧
      loadState none parse = emptyDoc ∧
      loadFromStorage (some sg) (some sp) parseGoals parseProgress = none ∧
      initGoals (loadFromStorage (some sg) (some sp) parseGoals parseProgress) dGoals
        = dGoals := by
  have h1 : loadState (some str) parse = emptyDoc := by
    simp [loadState, hparse]
  have h4 : loadFromStorage (some sg) (some sp) parseGoals parseProgress = none := by
    simp [loadFromStorage, hpg]
  refine ⟨h1, ?_, rfl, h4, ?_⟩
  · rw [h1]; rfl
  · simp [initGoals, h4]

/-- Witness for C9 with parses that always fail. -/
theorem claim_load_malformed_defaults_witness :
    loadState (some "garbage") noParse = emptyDoc ∧
      initStore (loadState (some "garbage") noParse) = defaultInitialState ∧
      loadFromStorage (some "bad") (some "worse") noParseGoals noParseProgress = none := by
  obtain ⟨h1, h2, h3, h4, h5⟩ := claim_load_malformed_defaults "garbage" noParse rfl
    "bad" "worse" noParseGoals noParseProgress rfl []
  exact ⟨h1, h2, h4⟩


end Solace
